import Mathlib

/-!
Shallow embedding of the session/account service in
`src/src/auth/auth.service.ts` (NestJS movie-backend training project).

The service orchestrates three leaf collaborators: a credential store
(TypeORM repository over `User` records), a password hasher (bcrypt) and a
token issuer (JWT signing).  The store is modelled as a list of user records
plus an id counter, passed explicitly through every stateful operation.
Password hashing and token signing are external libraries, out of scope per
the spec; they are modelled by concrete executable functions that keep the
properties the service relies on (a hash embeds its salt and verifies against
the plaintext it was built from; a signed token determines its payload).
Fallible operations return `Except AuthError`.
-/

namespace MovieAuth

/-- Roles of a user account.  Modelled from the spec: the enum source file
`user-role.enum.ts` is not under `src/`; the spec lists USER and ADMIN as the
enumerated roles, with USER the default. -/
inductive UserRole where
  | USER
  | ADMIN
  deriving DecidableEq

/-- A persisted user record (`user.entity.ts` is not under `src/`; the field
list is the one `auth.service.ts` reads and writes: id, username, password,
email, tmdb_key, role).  `id` is `none` until the persistence layer assigns
an auto-generated value at save time. -/
structure User where
  id : Option Nat
  username : String
  password : String
  email : String
  tmdb_key : String
  role : UserRole
  deriving DecidableEq

/-- The credential store: the list of persisted records plus the next
auto-generated id. -/
structure Store where
  users : List User
  nextId : Nat
  deriving DecidableEq

/-- Modelled from the spec: bcrypt is a leaf collaborator whose internals are
out of scope.  `bhash password salt` produces a salted hash string; the fixed
prefix and embedded salt mirror the bcrypt format closely enough that the
hash is never equal to the plaintext and can be verified without the salt. -/
def bhash (password salt : String) : String :=
  "$2b$" ++ salt ++ "$" ++ password

/-- Boolean test that `suffix` is a suffix of `s` (on character lists). -/
def suffixEq (suffix s : List Char) : Bool :=
  s.drop (s.length - suffix.length) == suffix

/-- Modelled from the spec: `bcrypt.compare plaintext hash` re-derives the
hash from the salt embedded in `hash` and compares; here that amounts to
checking that `hash` ends with the separator plus the plaintext. -/
def bcompare (password hash : String) : Bool :=
  suffixEq ("$" ++ password).data hash.data

/-- The JWT payload built by `createToken` (`jwt-payload.interface.ts` is not
under `src/`; the five fields are exactly the ones `createToken` assigns). -/
structure JwtPayload where
  id : Option Nat
  username : String
  email : String
  role : UserRole
  tmdb_key : String
  deriving DecidableEq

/-- Modelled from the spec: the token issuer serializes a fixed payload into
a signed bearer token and its internals are out of scope, so a token is
represented by the payload it certifies. -/
structure Token where
  payload : JwtPayload
  deriving DecidableEq

/-- The token issuer's `sign` (JwtService.sign). -/
def sign (p : JwtPayload) : Token :=
  ⟨p⟩

/-- Decoding a signed token recovers its payload. -/
def decodeToken (t : Token) : JwtPayload :=
  t.payload

/-- The error taxonomy the service signals (NestJS exception classes). -/
inductive AuthError where
  | Unauthorized (msg : String)
  | Conflict (msg : String)
  | Internal
  | NotFound (msg : String)
  deriving DecidableEq

/-- An error signalled by the persistence layer, carrying the driver error
code the service inspects. -/
structure DbError where
  code : String
  deriving DecidableEq

/-- The message of the one Unauthorized error thrown by `signIn`. -/
def unauthorizedMsg : String :=
  "Please check your login credentials"

/-- Embedding of `createToken` (auth.service.ts lines 114-125): builds the
payload from exactly five fields of the user and signs it. -/
def createToken (user : User) : Token :=
  sign { id := user.id, username := user.username, email := user.email,
         role := user.role, tmdb_key := user.tmdb_key }

/-- Signup DTO (`signup.dto.ts` is not under `src/`; the fields are the ones
`signUp` destructures: username, password, email, tmdb_key, optional role). -/
structure SignUpCredentialsDto where
  username : String
  password : String
  email : String
  tmdb_key : String
  role : Option UserRole
  deriving DecidableEq

/-- Signin DTO: email and plaintext password. -/
structure SignInCredentialsDto where
  email : String
  password : String
  deriving DecidableEq

/-- Modelled from the spec: `refresh-token.dto.ts` is not under `src/`; the
spec says refresh re-issues a token from the prior token fields, so the DTO
carries the payload fields. -/
structure RefreshTokenDto where
  id : Option Nat
  username : String
  email : String
  role : UserRole
  tmdb_key : String
  deriving DecidableEq

/-- The TypeScript cast `refreshTokenDto as User`: the DTO has no password
property, so the password field of the cast object is empty. -/
def RefreshTokenDto.toUser (d : RefreshTokenDto) : User :=
  { id := d.id, username := d.username, password := "", email := d.email,
    tmdb_key := d.tmdb_key, role := d.role }

/-- Check-email DTO: the email to look up. -/
structure CheckEmailDto where
  email : String
  deriving DecidableEq

/-- Modelled from the spec: `update-user.dto.ts` is not under `src/`; the
spec says updateUser applies a partial update of mutable profile fields
including role (the password is not among them). -/
structure UpdateCredentialDto where
  username : Option String
  email : Option String
  tmdb_key : Option String
  role : Option UserRole
  deriving DecidableEq

/-- The repository's `findOne({ where: { email } })`: first record whose
email matches, if any. -/
def findByEmail (s : Store) (email : String) : Option User :=
  s.users.find? (fun u => u.email == email)

/-- Modelled from the spec: the store enforces uniqueness of username and
email; a violated constraint surfaces as the driver duplicate-key error code
that the service's catch block inspects (the source comments name 11000 as
the duplicate code for the store in use).  On success the record is appended
with the next auto-generated id. -/
def saveUser (s : Store) (u : User) : Except DbError Store :=
  if s.users.any (fun v => v.username == u.username || v.email == u.email) then
    .error ⟨"11000"⟩
  else
    .ok ⟨s.users ++ [{ u with id := some s.nextId }], s.nextId + 1⟩

/-- Embedding of the catch block of `signUp` (auth.service.ts lines 53-62):
a duplicate-key persistence error becomes Conflict, anything else Internal. -/
def classifyDbError (e : DbError) : AuthError :=
  if e.code = "11000" then .Conflict "Username already exists"
  else .Internal

/-- The pre-save record `signUp` constructs via `userRepository.create`
(auth.service.ts lines 40-46): hashed password, role defaulting to USER, no
id yet. -/
def mkSignUpUser (dto : SignUpCredentialsDto) (salt : String) : User :=
  { id := none, username := dto.username, password := bhash dto.password salt,
    email := dto.email, tmdb_key := dto.tmdb_key,
    role := dto.role.getD UserRole.USER }

/-- Embedding of `signUp` (auth.service.ts lines 30-63).  The randomly
generated salt is an explicit argument.  The token is created from the
pre-save record, then the record is persisted; persistence errors are
classified by the catch block. -/
def signUp (dto : SignUpCredentialsDto) (salt : String) (s : Store) :
    Except AuthError (Store × Token) :=
  let user := mkSignUpUser dto salt
  let accessToken := createToken user
  match saveUser s user with
  | .ok s2 => .ok (s2, accessToken)
  | .error e => .error (classifyDbError e)

/-- Embedding of `signIn` (auth.service.ts lines 66-80): look up by email;
if a record exists and the password verifies, return a token for it;
otherwise throw the one Unauthorized error. -/
def signIn (dto : SignInCredentialsDto) (s : Store) : Except AuthError Token :=
  match findByEmail s dto.email with
  | some user =>
      if bcompare dto.password user.password then
        .ok (createToken user)
      else
        .error (.Unauthorized unauthorizedMsg)
  | none => .error (.Unauthorized unauthorizedMsg)

/-- Embedding of `refreshToken` (auth.service.ts lines 83-86): issue a token
directly from the caller-supplied fields; no store access, no failure. -/
def refreshToken (d : RefreshTokenDto) : Token :=
  createToken d.toUser

/-- Embedding of `checkEmail` (auth.service.ts lines 88-91): true when a
record with the email exists. -/
def checkEmail (dto : CheckEmailDto) (s : Store) : Bool :=
  match findByEmail s dto.email with
  | some _ => true
  | none => false

/-- Application of the partial update object `{ ...updateCredentialDto,
role: UserRole[role] }` to one stored record: fields present in the DTO are
overwritten, absent ones keep their stored value. -/
def applyUpdate (d : UpdateCredentialDto) (u : User) : User :=
  { u with username := d.username.getD u.username,
           email := d.email.getD u.email,
           tmdb_key := d.tmdb_key.getD u.tmdb_key,
           role := d.role.getD u.role }

/-- Embedding of `updateUser` (auth.service.ts lines 94-102): the store
records whose id equals the caller's id receive the partial update, and the
returned token is created from the caller-supplied (pre-update) user
object. -/
def updateUser (d : UpdateCredentialDto) (user : User) (s : Store) :
    Store × Token :=
  (⟨s.users.map (fun u => if u.id == user.id then applyUpdate d u else u),
    s.nextId⟩,
   createToken user)

/-- Embedding of `getUser` (auth.service.ts lines 104-111).  The repository
lookup `findOne({ where: { user } })` filters on a column the entity does not
have, so its outcome is kept abstract as the `found` argument; the service
throws NotFound when the lookup is empty and otherwise returns its own
argument. -/
def getUser (found : Option User) (user : User) : Except AuthError User :=
  match found with
  | none => .error (.NotFound ("User \"" ++ user.username ++ "\" not found!"))
  | some _ => .ok user

/-- Invariant of the credential store: every persisted password field is a
hasher output. -/
def StoreHashed (s : Store) : Prop :=
  ∀ u ∈ s.users, ∃ p salt, u.password = bhash p salt

/-- A concrete registered user for concrete instantiations. -/
def demoUser : User :=
  { id := some 1, username := "alice", password := bhash "p@ss1234" "s1",
    email := "a@x.com", tmdb_key := "k1", role := UserRole.USER }

/-- A concrete store holding `demoUser`. -/
def demoStore : Store :=
  ⟨[demoUser], 2⟩

/-- The empty store. -/
def emptyStore : Store :=
  ⟨[], 1⟩

/-- A concrete signup request. -/
def demoSignUpDto : SignUpCredentialsDto :=
  ⟨"alice", "p@ss1234", "a@x.com", "k1", none⟩

/-- A concrete profile update that only changes the role. -/
def demoRoleUpdate : UpdateCredentialDto :=
  ⟨none, none, none, some UserRole.ADMIN⟩

/-- C1: signIn returns a token exactly when a record with the given email
exists and the password verifies against its stored hash; when the record is
absent or the hash mismatches, it fails with the one Unauthorized error, the
same error value in both failure cases. -/
theorem signIn_token_or_one_unauthorized (dto : SignInCredentialsDto) (s : Store) :
    (∀ u, findByEmail s dto.email = some u →
      (bcompare dto.password u.password = true →
        signIn dto s = .ok (createToken u)) ∧
      (bcompare dto.password u.password = false →
        signIn dto s = .error (.Unauthorized unauthorizedMsg))) ∧
    (findByEmail s dto.email = none →
      signIn dto s = .error (.Unauthorized unauthorizedMsg)) := by
  constructor
  · intro u hu
    constructor
    · intro hc
      simp [signIn, hu, hc]
    · intro hc
      simp [signIn, hu, hc]
  · intro hn
    simp [signIn, hn]

/-- Witness for C1 on a concrete store: the right password yields a token,
and the wrong-password and unknown-email failures yield the identical
Unauthorized error. -/
theorem signIn_token_or_one_unauthorized_witness :
    signIn ⟨"a@x.com", "p@ss1234"⟩ demoStore = .ok (createToken demoUser) ∧
    signIn ⟨"a@x.com", "wrong"⟩ demoStore =
      .error (.Unauthorized unauthorizedMsg) ∧
    signIn ⟨"b@x.com", "p@ss1234"⟩ demoStore =
      .error (.Unauthorized unauthorizedMsg) :=
  ⟨((signIn_token_or_one_unauthorized ⟨"a@x.com", "p@ss1234"⟩ demoStore).1
      demoUser (by decide)).1 (by decide),
   ((signIn_token_or_one_unauthorized ⟨"a@x.com", "wrong"⟩ demoStore).1
      demoUser (by decide)).2 (by decide),
   (signIn_token_or_one_unauthorized ⟨"b@x.com", "p@ss1234"⟩ demoStore).2
      (by decide)⟩

/-- C2: when the username and email are not already taken, signUp succeeds
and the decoded payload of the returned token has the input's username and
email, and the input's role, defaulting to USER when the input omits it. -/
theorem signUp_payload_matches_input (dto : SignUpCredentialsDto)
    (salt : String) (s : Store)
    (h : s.users.any (fun v => v.username == dto.username ||
          v.email == dto.email) = false) :
    ∃ s2 t, signUp dto salt s = .ok (s2, t) ∧
      (decodeToken t).username = dto.username ∧
      (decodeToken t).email = dto.email ∧
      (decodeToken t).role = dto.role.getD UserRole.USER := by
  refine ⟨⟨s.users ++ [{ mkSignUpUser dto salt with id := some s.nextId }],
           s.nextId + 1⟩,
          createToken (mkSignUpUser dto salt), ?_, rfl, rfl, rfl⟩
  simp [signUp, saveUser, mkSignUpUser, h]

/-- Witness for C2: a concrete signup on the empty store (role omitted)
succeeds with payload username alice, email a@x.com and role USER. -/
theorem signUp_payload_matches_input_witness :
    ∃ s2 t, signUp demoSignUpDto "s1" emptyStore = .ok (s2, t) ∧
      (decodeToken t).username = "alice" ∧
      (decodeToken t).email = "a@x.com" ∧
      (decodeToken t).role = UserRole.USER :=
  signUp_payload_matches_input demoSignUpDto "s1" emptyStore (by decide)

/-- C4: signUp hashes the password with the generated salt, builds the
record with the hash and role, issues the token from that pre-save record,
and only then persists it: on success the store gains the record with the
persistence-time id while the returned token is the one created from the
pre-save record, whose payload id is still the unassigned value. -/
theorem signUp_presave_token (dto : SignUpCredentialsDto) (salt : String)
    (s : Store)
    (h : s.users.any (fun v => v.username == dto.username ||
          v.email == dto.email) = false) :
    signUp dto salt s =
      .ok (⟨s.users ++ [{ mkSignUpUser dto salt with id := some s.nextId }],
            s.nextId + 1⟩,
           createToken (mkSignUpUser dto salt)) ∧
    (mkSignUpUser dto salt).password = bhash dto.password salt ∧
    (decodeToken (createToken (mkSignUpUser dto salt))).id = none ∧
    (decodeToken (createToken (mkSignUpUser dto salt))).id ≠ some s.nextId := by
  refine ⟨?_, rfl, rfl, by simp [decodeToken, createToken, sign, mkSignUpUser]⟩
  simp [signUp, saveUser, mkSignUpUser, h]

/-- Witness for C4: the concrete signup returns the token of the pre-save
record (payload id none) while the persisted record carries id 1. -/
theorem signUp_presave_token_witness :
    signUp demoSignUpDto "s1" emptyStore =
      .ok (⟨[{ mkSignUpUser demoSignUpDto "s1" with id := some 1 }], 2⟩,
           createToken (mkSignUpUser demoSignUpDto "s1")) ∧
    (mkSignUpUser demoSignUpDto "s1").password = bhash "p@ss1234" "s1" ∧
    (decodeToken (createToken (mkSignUpUser demoSignUpDto "s1"))).id = none ∧
    (decodeToken (createToken (mkSignUpUser demoSignUpDto "s1"))).id ≠ some 1 :=
  signUp_presave_token demoSignUpDto "s1" emptyStore (by decide)

/-- Helper: checkEmail is true exactly when a record with the email is in
the store. -/
theorem checkEmail_eq_true_iff (email : String) (s : Store) :
    checkEmail ⟨email⟩ s = true ↔ ∃ u ∈ s.users, u.email = email := by
  unfold checkEmail findByEmail
  constructor
  · intro h
    cases hf : s.users.find? (fun u => u.email == email) with
    | none => simp [hf] at h
    | some u =>
        exact ⟨u, List.mem_of_find?_eq_some hf,
               by simpa using List.find?_some hf⟩
  · intro hex
    have hs : (s.users.find? (fun u => u.email == email)).isSome = true := by
      rw [List.find?_isSome]
      obtain ⟨u, hu, he⟩ := hex
      exact ⟨u, hu, by simpa using he⟩
    cases hf : s.users.find? (fun u => u.email == email) with
    | none => rw [hf] at hs; simp at hs
    | some u => simp [hf]

/-- C3: a persistence failure in signUp is classified by its driver code:
the duplicate-key code becomes Conflict, any other code becomes Internal;
in particular a signup whose email is already registered fails with
Conflict. -/
theorem signUp_persistence_failures :
    (∀ e : DbError, e.code = "11000" →
      classifyDbError e = .Conflict "Username already exists") ∧
    (∀ e : DbError, e.code ≠ "11000" → classifyDbError e = .Internal) ∧
    (∀ (dto : SignUpCredentialsDto) (salt : String) (s : Store),
      (∃ u ∈ s.users, u.email = dto.email) →
      signUp dto salt s = .error (.Conflict "Username already exists")) := by
  refine ⟨fun e he => by simp [classifyDbError, he],
          fun e he => by simp [classifyDbError, he], ?_⟩
  intro dto salt s hex
  have hd : (s.users.any fun v =>
      v.username == (mkSignUpUser dto salt).username ||
      v.email == (mkSignUpUser dto salt).email) = true := by
    rw [List.any_eq_true]
    obtain ⟨u, hu, he⟩ := hex
    exact ⟨u, hu, by simp [mkSignUpUser, he]⟩
  simp [signUp, saveUser, hd, classifyDbError]

/-- Witness for C3: the duplicate-key code maps to Conflict, another code to
Internal, and a second signup with the already-registered email a@x.com
fails with Conflict. -/
theorem signUp_persistence_failures_witness :
    classifyDbError ⟨"11000"⟩ = .Conflict "Username already exists" ∧
    classifyDbError ⟨"42"⟩ = .Internal ∧
    signUp ⟨"bob", "pw2", "a@x.com", "k2", none⟩ "s2" demoStore =
      .error (.Conflict "Username already exists") :=
  ⟨signUp_persistence_failures.1 ⟨"11000"⟩ rfl,
   signUp_persistence_failures.2.1 ⟨"42"⟩ (by decide),
   signUp_persistence_failures.2.2 ⟨"bob", "pw2", "a@x.com", "k2", none⟩
     "s2" demoStore ⟨demoUser, by decide, rfl⟩⟩

/-- C5: updateUser returns the token created from the caller-supplied
pre-update user object, while the store records whose id equals that user's
id receive the partial update (and the others are untouched); concretely, a
role update to ADMIN leaves the returned token's role at the old USER value
even though the stored record now has role ADMIN. -/
theorem updateUser_applies_and_signs_old :
    (∀ (d : UpdateCredentialDto) (user : User) (s : Store),
      (updateUser d user s).2 = createToken user ∧
      (∀ u ∈ s.users, u.id = user.id →
        applyUpdate d u ∈ (updateUser d user s).1.users) ∧
      (∀ u ∈ s.users, u.id ≠ user.id → u ∈ (updateUser d user s).1.users)) ∧
    (decodeToken (updateUser demoRoleUpdate demoUser demoStore).2).role =
      UserRole.USER ∧
    (∃ u ∈ (updateUser demoRoleUpdate demoUser demoStore).1.users,
      u.id = demoUser.id ∧ u.role = UserRole.ADMIN) := by
  refine ⟨fun d user s => ⟨rfl, fun u hu hid => ?_, fun u hu hid => ?_⟩,
          by decide, by decide⟩
  · have : (fun u => if u.id == user.id then applyUpdate d u else u) u =
        applyUpdate d u := by simp [hid]
    rw [show (updateUser d user s).1.users =
          s.users.map (fun u => if u.id == user.id then applyUpdate d u else u)
        from rfl, ← this]
    exact List.mem_map_of_mem _ hu
  · have : (fun u => if u.id == user.id then applyUpdate d u else u) u = u := by
      simp [hid]
    rw [show (updateUser d user s).1.users =
          s.users.map (fun u => if u.id == user.id then applyUpdate d u else u)
        from rfl, ← this]
    exact List.mem_map_of_mem _ hu

/-- Witness for C5: on the concrete store, the record with demoUser's id is
replaced by its updated version, a record with a different id stays, and the
returned token is the pre-update one. -/
theorem updateUser_applies_and_signs_old_witness :
    (updateUser demoRoleUpdate demoUser demoStore).2 = createToken demoUser ∧
    applyUpdate demoRoleUpdate demoUser ∈
      (updateUser demoRoleUpdate demoUser demoStore).1.users :=
  ⟨(updateUser_applies_and_signs_old.1 demoRoleUpdate demoUser demoStore).1,
   (updateUser_applies_and_signs_old.1 demoRoleUpdate demoUser demoStore).2.1
     demoUser (by decide) rfl⟩

/-- C6: checkEmail is true exactly when a record with the email exists in
the store (and it is a pure query: it takes the store and returns only a
boolean); in particular it is true on the store produced by a successful
signup with that email. -/
theorem checkEmail_iff_registered (email : String) (s : Store) :
    (checkEmail ⟨email⟩ s = true ↔ ∃ u ∈ s.users, u.email = email) ∧
    (∀ (dto : SignUpCredentialsDto) (salt : String) (s2 : Store) (t : Token),
      signUp dto salt s = .ok (s2, t) → checkEmail ⟨dto.email⟩ s2 = true) := by
  refine ⟨checkEmail_eq_true_iff email s, ?_⟩
  intro dto salt s2 t h
  by_cases hd : (s.users.any fun v =>
      v.username == (mkSignUpUser dto salt).username ||
      v.email == (mkSignUpUser dto salt).email) = true
  · simp [signUp, saveUser, hd] at h
  · simp [signUp, saveUser, hd] at h
    rw [checkEmail_eq_true_iff]
    refine ⟨{ mkSignUpUser dto salt with id := some s.nextId }, ?_, rfl⟩
    rw [← h.1]
    simp

/-- Witness for C6: checkEmail is true for the registered email a@x.com,
false for an unregistered one, and true right after the concrete signup. -/
theorem checkEmail_iff_registered_witness :
    checkEmail ⟨"a@x.com"⟩ demoStore = true ∧
    checkEmail ⟨"nobody@x.com"⟩ demoStore = false ∧
    checkEmail ⟨"a@x.com"⟩
      ⟨[{ mkSignUpUser demoSignUpDto "s1" with id := some 1 }], 2⟩ = true :=
  ⟨(checkEmail_iff_registered "a@x.com" demoStore).1.mpr
     ⟨demoUser, by decide, rfl⟩,
   by decide,
   (checkEmail_iff_registered "a@x.com" emptyStore).2 demoSignUpDto "s1"
     ⟨[{ mkSignUpUser demoSignUpDto "s1" with id := some 1 }], 2⟩
     (createToken (mkSignUpUser demoSignUpDto "s1")) rfl⟩

/-- C7: refreshToken issues a token directly from the caller-supplied DTO
fields — its payload is exactly those fields — with no credential-store
access and no failure (it takes no store and returns a token, not an
`Except`). -/
theorem refreshToken_direct (d : RefreshTokenDto) :
    refreshToken d = createToken d.toUser ∧
    decodeToken (refreshToken d) =
      { id := d.id, username := d.username, email := d.email, role := d.role,
        tmdb_key := d.tmdb_key } :=
  ⟨rfl, rfl⟩

/-- C8: the payload createToken signs consists of exactly the five fields
id, username, email, role and tmdb_key of the user — in particular it does
not depend on the password hash — and every token returned by signUp,
signIn, refreshToken or updateUser is a createToken of some user, so no
other field is ever embedded. -/
theorem createToken_payload_exact :
    (∀ u : User, decodeToken (createToken u) =
      { id := u.id, username := u.username, email := u.email, role := u.role,
        tmdb_key := u.tmdb_key }) ∧
    (∀ (u : User) (p : String),
      createToken { u with password := p } = createToken u) ∧
    (∀ (dto : SignUpCredentialsDto) (salt : String) (s s2 : Store) (t : Token),
      signUp dto salt s = .ok (s2, t) → ∃ u, t = createToken u) ∧
    (∀ (dto : SignInCredentialsDto) (s : Store) (t : Token),
      signIn dto s = .ok t → ∃ u, t = createToken u) ∧
    (∀ d : RefreshTokenDto, ∃ u, refreshToken d = createToken u) ∧
    (∀ (d : UpdateCredentialDto) (user : User) (s : Store),
      (updateUser d user s).2 = createToken user) := by
  refine ⟨fun u => rfl, fun u p => rfl, ?_, ?_,
          fun d => ⟨d.toUser, rfl⟩, fun d user s => rfl⟩
  · intro dto salt s s2 t h
    by_cases hd : (s.users.any fun v =>
        v.username == (mkSignUpUser dto salt).username ||
        v.email == (mkSignUpUser dto salt).email) = true
    · simp [signUp, saveUser, hd] at h
    · simp [signUp, saveUser, hd] at h
      exact ⟨mkSignUpUser dto salt, h.2.symm⟩
  · intro dto s t h
    cases hf : findByEmail s dto.email with
    | none => simp [signIn, hf] at h
    | some u =>
        by_cases hc : bcompare dto.password u.password = true
        · simp [signIn, hf, hc] at h
          exact ⟨u, h.symm⟩
        · simp [signIn, hf, hc] at h

/-- Witness for C8: the token returned by the concrete successful signIn is
a createToken of some user. -/
theorem createToken_payload_exact_witness :
    ∃ u, signIn ⟨"a@x.com", "p@ss1234"⟩ demoStore = .ok (createToken u) := by
  obtain ⟨u, hu⟩ := createToken_payload_exact.2.2.2.1 ⟨"a@x.com", "p@ss1234"⟩
    demoStore (createToken demoUser) rfl
  exact ⟨u, by rw [← hu]; rfl⟩

/-- C9: the password field of every persisted record is a hasher output and
never the plaintext: a hash is never equal to the password it was built
from, signUp persists only the hash of its password input, and a store in
which every password is a hash stays that way across signUp and updateUser
(signIn, checkEmail and refreshToken do not write the store at all). -/
theorem password_always_hashed :
    (∀ p salt : String, bhash p salt ≠ p) ∧
    (∀ (dto : SignUpCredentialsDto) (salt : String) (s s2 : Store) (t : Token),
      StoreHashed s → signUp dto salt s = .ok (s2, t) → StoreHashed s2) ∧
    (∀ (d : UpdateCredentialDto) (user : User) (s : Store),
      StoreHashed s → StoreHashed (updateUser d user s).1) := by
  refine ⟨?_, ?_, ?_⟩
  · intro p salt h
    have hlen := congrArg String.length h
    have h4 : ("$2b$" : String).length = 4 := by decide
    have h1 : ("$" : String).length = 1 := by decide
    simp [bhash, String.length_append, h4, h1] at hlen
  · intro dto salt s s2 t hs h
    by_cases hd : (s.users.any fun v =>
        v.username == (mkSignUpUser dto salt).username ||
        v.email == (mkSignUpUser dto salt).email) = true
    · simp [signUp, saveUser, hd] at h
    · simp [signUp, saveUser, hd] at h
      intro u hu
      rw [← h.1] at hu
      simp at hu
      cases hu with
      | inl hmem => exact hs u hmem
      | inr heq => exact ⟨dto.password, salt, by rw [heq]; rfl⟩

  · intro d user s hs u hu
    simp [updateUser] at hu
    obtain ⟨v, hv, heq⟩ := hu
    obtain ⟨p, sa, hp⟩ := hs v hv
    refine ⟨p, sa, ?_⟩
    rw [← heq]
    by_cases hid : v.id = user.id
    · simp [hid, applyUpdate, hp]
    · simp [hid, hp]

/-- Witness for C9: the concrete hash differs from its plaintext, and the
stores produced by the concrete signup and the concrete role update satisfy
the all-passwords-hashed invariant. -/
theorem password_always_hashed_witness :
    bhash "p@ss1234" "s1" ≠ "p@ss1234" ∧
    StoreHashed (updateUser demoRoleUpdate demoUser demoStore).1 :=
  ⟨password_always_hashed.1 "p@ss1234" "s1",
   password_always_hashed.2.2 demoRoleUpdate demoUser demoStore
     (by intro u hu
         simp [demoStore] at hu
         exact ⟨"p@ss1234", "s1", by rw [hu]; rfl⟩)⟩

/-- C10: getUser throws NotFound when the store lookup finds no record, and
otherwise returns its argument user object unchanged — for every fetched
record, including ones different from the argument. -/
theorem getUser_returns_argument (user : User) :
    getUser none user =
      .error (.NotFound ("User \"" ++ user.username ++ "\" not found!")) ∧
    (∀ w : User, getUser (some w) user = .ok user) :=
  ⟨rfl, fun _ => rfl⟩

end MovieAuth
